import Mathlib

/-!
A verification development for the fixed-layout card renderer implemented in
`src/imageProcessor.js` of the arena-qr repository.

Embedding conventions:
* JavaScript strings are modelled as lists of characters (`Str`);
* JavaScript numbers are modelled as exact rationals (`ℚ`), so the float
  literals `1.2` and `1.4` become `6/5` and `7/5`;
* the mutable canvas surface is modelled as the ordered list of drawing
  operations (`DrawOp`) painted onto it;
* `ctx.measureText` is modelled as a caller-supplied measuring function,
  indexed by the `ctx.font` string in force at the call;
* the asynchronous external effects (subject-bitmap load, logo decode,
  code-bitmap generation and load, `new Date` parsing plus
  `toLocaleDateString`) are modelled by explicit outcome parameters;
* fallible computations return `Except String α`, carrying the thrown
  error's `message` string.
-/

/-- JavaScript strings, modelled as lists of characters. -/
abbrev Str := List Char

/-- JS `text.split(" ")` (source line 499): split at every single space
character, keeping empty pieces; the result is always non-empty. -/
def splitSpace : Str → List Str
  | [] => [[]]
  | c :: cs =>
    match splitSpace cs with
    | [] => [[]]
    | w :: ws => if c = ' ' then [] :: w :: ws else (c :: w) :: ws

/-- Drop the empty words of a word list (used to state whitespace-normalised
word reconstruction). -/
def dropEmpty : List Str → List Str
  | [] => []
  | w :: ws => if w = [] then dropEmpty ws else w :: dropEmpty ws

/-- The whitespace-normalised word sequence of a string: its `split(" ")`
pieces with the empty pieces dropped. -/
def lineWords (l : Str) : List Str := dropEmpty (splitSpace l)

/-- The `for` loop of `wrapText` together with the final flush
(source lines 503–517): fold over the remaining words, extending
`currentLine` by a separating space and the word while the measured
tentative line stays strictly below `maxWidth`, otherwise pushing the
current line and starting a new one with the word; after the loop the final
`currentLine` is pushed if it is non-empty. -/
def wrapTextLoop (measure : Str → ℚ) (maxWidth : ℚ) :
    List Str → Str → List Str → List Str
  | [], currentLine, lines =>
      if currentLine = [] then lines else lines ++ [currentLine]
  | word :: rest, currentLine, lines =>
      if measure (currentLine ++ ' ' :: word) < maxWidth then
        wrapTextLoop measure maxWidth rest (currentLine ++ ' ' :: word) lines
      else
        wrapTextLoop measure maxWidth rest word (lines ++ [currentLine])

/-- `wrapText` (source lines 498–520): split the text on single spaces,
start from `words[0] || ""`, and run the greedy wrapping loop. -/
def wrapText (text : Str) (measure : Str → ℚ) (maxWidth : ℚ) : List Str :=
  let words := splitSpace text
  wrapTextLoop measure maxWidth (words.drop 1) (words.headD []) []

/-- The `ContentOptions` settings object (source lines 3–31): numeric fields
are exact rationals, colours and font families are strings. -/
structure ContentOptions where
  canvasWidth : ℚ
  canvasHeight : ℚ
  contentWidth : ℚ
  metadataWidth : ℚ
  frameWidth : ℚ
  frameColor : String
  borderColor : String
  containerBorderColor : String
  containerPadding : ℚ
  textContainerMargin : ℚ
  padding : ℚ
  titleFontSize : ℚ
  descriptionFontSize : ℚ
  dateAddedFontSize : ℚ
  authorFontSize : ℚ
  titleFontFamily : String
  metadataFontFamily : String
  titleColor : String
  metadataColor : String
  qrCodeSize : ℚ
  qrCodeMargin : ℚ
  qrCodeColorDark : String
  qrCodeColorLight : String
  spaceBetween : ℚ
  backgroundColor : String

/-- The settings literal hard-coded by `generateContentWithQR`
(source lines 67–95). -/
def defaultSettings : ContentOptions where
  canvasWidth := 800
  canvasHeight := 500
  contentWidth := 600
  metadataWidth := 200
  frameWidth := 1
  frameColor := "#e7e7e5"
  borderColor := "#000"
  containerBorderColor := "#e7e7e5"
  containerPadding := 2
  textContainerMargin := 5
  padding := 16
  titleFontSize := 18
  descriptionFontSize := 14
  dateAddedFontSize := 12
  authorFontSize := 12
  titleFontFamily := "Arial, sans-serif"
  metadataFontFamily := "Arial, sans-serif"
  titleColor := "#333"
  metadataColor := "#666"
  qrCodeSize := 150
  qrCodeMargin := 1
  qrCodeColorDark := "#000000"
  qrCodeColorLight := "#ffffff"
  spaceBetween := 15
  backgroundColor := "#fff"

/-- A content descriptor (source typedefs at lines 33–56).  JS object
fields that may be absent are `Option`s: `none` models an absent property
(`"f" in content` is false), `some s` a present property of value `s`. -/
structure Content where
  type : String
  text : Option String := none
  imageUrl : Option String := none
  displayUrl : Option String := none
  title : Option String := none
  description : Option String := none
  created_at : Option String := none
  username : Option String := none
deriving DecidableEq

/-- JS truthiness of an optional string property: `undefined` and the empty
string are falsy, every other string is truthy. -/
def truthy (o : Option String) : Bool :=
  match o with
  | none => false
  | some s => s ≠ ""

/-- One drawing operation painted onto the canvas surface, in paint order. -/
inductive DrawOp where
  | fillRectOp (x y w h : ℚ) (color : String)
  | fillTextOp (text : Str) (x y : ℚ)
  | drawImageOp (x y w h : ℚ)
  | drawLogoOp (x y : ℚ)
deriving DecidableEq

/-- Whether an operation is a `fillText` text-drawing operation. -/
def DrawOp.isFillTextOp : DrawOp → Bool
  | .fillTextOp _ _ _ => true
  | _ => false

/-- `drawBaseLayout` (source lines 142–174): outer border fill, inner frame
fill, background fill, and the vertical divider at
`contentWidth + frameWidth * 2`. -/
def drawBaseLayoutOps (s : ContentOptions) : List DrawOp :=
  [DrawOp.fillRectOp 0 0 s.canvasWidth s.canvasHeight s.borderColor,
   DrawOp.fillRectOp s.frameWidth s.frameWidth (s.canvasWidth - s.frameWidth * 2)
     (s.canvasHeight - s.frameWidth * 2) s.frameColor,
   DrawOp.fillRectOp (s.frameWidth * 2) (s.frameWidth * 2) (s.canvasWidth - s.frameWidth * 4)
     (s.canvasHeight - s.frameWidth * 4) s.backgroundColor,
   DrawOp.fillRectOp (s.contentWidth + s.frameWidth * 2) s.frameWidth s.frameWidth
     (s.canvasHeight - s.frameWidth * 2) s.frameColor]

/-- `ctx.font` strings as assembled by the source before each
`measureText`/`fillText` call. -/
def fontSpec (bold : Bool) (size : ℚ) (family : String) : String :=
  (if bold then "bold " else "") ++ toString size ++ "px " ++ family

/-- Content container x (source line 199 / 277): `frameWidth * 2 + padding`. -/
def contentContainerX (s : ContentOptions) : ℚ := s.frameWidth * 2 + s.padding

/-- Content container y (source line 200 / 278): `frameWidth * 2 + padding`. -/
def contentContainerY (s : ContentOptions) : ℚ := s.frameWidth * 2 + s.padding

/-- Content container width (source lines 192, 201 / 272, 279):
`contentWidth - padding * 2`. -/
def contentContainerW (s : ContentOptions) : ℚ := s.contentWidth - s.padding * 2

/-- Content container height (source lines 193–196 / 273–274):
`canvasHeight - padding * 2 - frameWidth * 4`. -/
def contentContainerH (s : ContentOptions) : ℚ :=
  s.canvasHeight - s.padding * 2 - s.frameWidth * 4

/-- Width of the white inner rectangle of the content container
(source line 218): `containerWidth - containerPadding * 2`. -/
def contentInnerW (s : ContentOptions) : ℚ := contentContainerW s - s.containerPadding * 2

/-- Height of the white inner rectangle of the content container
(source line 219): `containerHeight - containerPadding * 2`. -/
def contentInnerH (s : ContentOptions) : ℚ := contentContainerH s - s.containerPadding * 2

/-- The scaling and centering computation of `renderImageContent`
(source lines 217–237). -/
structure ImageGeometry where
  scale : ℚ
  scaledWidth : ℚ
  scaledHeight : ℚ
  imageX : ℚ
  imageY : ℚ
deriving DecidableEq

/-- `renderImageContent`'s geometry (source lines 217–237): uniform scale
`min(innerWidth / img.width, innerHeight / img.height)`, scaled dimensions,
and the centred draw position inside the inner rectangle. -/
def imageGeometry (s : ContentOptions) (imgWidth imgHeight : ℚ) : ImageGeometry :=
  let scale := min (contentInnerW s / imgWidth) (contentInnerH s / imgHeight)
  { scale := scale
    scaledWidth := imgWidth * scale
    scaledHeight := imgHeight * scale
    imageX := contentContainerX s + s.containerPadding + (contentInnerW s - imgWidth * scale) / 2
    imageY := contentContainerY s + s.containerPadding + (contentInnerH s - imgHeight * scale) / 2 }

/-- The two container rectangles drawn by both content renderers
(source lines 204–215 / 282–293): grey border rectangle, then the white
inner rectangle. -/
def containerOps (s : ContentOptions) : List DrawOp :=
  [DrawOp.fillRectOp (contentContainerX s) (contentContainerY s) (contentContainerW s)
     (contentContainerH s) s.containerBorderColor,
   DrawOp.fillRectOp (contentContainerX s + s.containerPadding)
     (contentContainerY s + s.containerPadding) (contentInnerW s) (contentInnerH s) "#ffffff"]

/-- The fixed body text size of `renderTextContent` (source line 267). -/
def bodyTextSize : ℚ := 16

/-- The body line height of `renderTextContent` (source line 269):
`textFontSize * 1.4`. -/
def textLineHeight : ℚ := bodyTextSize * (7 / 5)

/-- Text start x (source lines 300–303):
`containerX + containerPadding * 2 + textContainerMargin * 2`. -/
def textStartX (s : ContentOptions) : ℚ :=
  contentContainerX s + s.containerPadding * 2 + s.textContainerMargin * 2

/-- Text start y (source lines 304–307). -/
def textStartY (s : ContentOptions) : ℚ :=
  contentContainerY s + s.containerPadding * 2 + s.textContainerMargin * 2

/-- Available wrapping width for body text (source lines 310–313):
`containerWidth - containerPadding * 4 - textContainerMargin * 4`. -/
def textAvailWidth (s : ContentOptions) : ℚ :=
  contentContainerW s - s.containerPadding * 4 - s.textContainerMargin * 4

/-- The bottom bound below which body lines are not drawn
(source line 322): `containerY + containerHeight - containerPadding * 2`. -/
def textBottomBound (s : ContentOptions) : ℚ :=
  contentContainerY s + contentContainerH s - s.containerPadding * 2

/-- The `wrappedText.forEach` of `renderTextContent` (source lines 319–326):
draw line `index` at `textY + index * lineHeight` only when
`textY + (index + 1) * lineHeight` is strictly below the bottom bound. -/
def drawTextLines (textX textY lineHeight bound : ℚ) :
    List Str → ℕ → List DrawOp
  | [], _ => []
  | line :: rest, index =>
      (if textY + ((index : ℚ) + 1) * lineHeight < bound then
        [DrawOp.fillTextOp line textX (textY + (index : ℚ) * lineHeight)]
      else [])
        ++ drawTextLines textX textY lineHeight bound rest (index + 1)

/-- The drawing operations of `renderTextContent` (source lines 264–328):
container rectangles, then the wrapped body lines with bottom truncation. -/
def renderTextContentOps (text : Str) (measure : String → Str → ℚ)
    (s : ContentOptions) : List DrawOp :=
  containerOps s
    ++ drawTextLines (textStartX s) (textStartY s) textLineHeight (textBottomBound s)
      (wrapText text (measure (fontSpec false bodyTextSize s.titleFontFamily))
        (textAvailWidth s)) 0

/-- Metadata panel x (source line 351): `contentWidth + frameWidth * 3`. -/
def metadataX (s : ContentOptions) : ℚ := s.contentWidth + s.frameWidth * 3

/-- Metadata panel y (source line 352): `frameWidth * 2 + padding`. -/
def metadataY (s : ContentOptions) : ℚ := s.frameWidth * 2 + s.padding

/-- Initial metadata cursor (source lines 358, 362):
`metadataY + imageHeight + padding` with the hard-coded logo height 17. -/
def metadataStartY (s : ContentOptions) : ℚ := metadataY s + 17 + s.padding

/-- Metadata wrapping width (source line 363): `metadataWidth - padding * 2`. -/
def metadataMaxWidth (s : ContentOptions) : ℚ := s.metadataWidth - s.padding * 2

/-- The wrapped title lines (source line 371). -/
def wrappedTitle (c : Content) (measure : String → Str → ℚ) (s : ContentOptions) : List Str :=
  wrapText (c.title.getD "").toList
    (measure (fontSpec true s.titleFontSize s.titleFontFamily)) (metadataMaxWidth s)

/-- The wrapped description lines (source line 391). -/
def wrappedDesc (c : Content) (measure : String → Str → ℚ) (s : ContentOptions) : List Str :=
  wrapText (c.description.getD "").toList
    (measure (fontSpec false s.descriptionFontSize s.metadataFontFamily)) (metadataMaxWidth s)

/-- Cursor advance of the title block (source lines 381–384):
`lineCount * (titleFontSize * 1.2) + spaceBetween` when the title is truthy,
otherwise no advance. -/
def titleAdv (c : Content) (measure : String → Str → ℚ) (s : ContentOptions) : ℚ :=
  if truthy c.title then
    ((wrappedTitle c measure s).length : ℚ) * (s.titleFontSize * (6 / 5)) + s.spaceBetween
  else 0

/-- Cursor advance of the description block (source lines 401–404). -/
def descAdv (c : Content) (measure : String → Str → ℚ) (s : ContentOptions) : ℚ :=
  if truthy c.description then
    ((wrappedDesc c measure s).length : ℚ) * (s.descriptionFontSize * (6 / 5)) + s.spaceBetween
  else 0

/-- Cursor advance of the date block (source line 425):
`dateAddedFontSize * 1.2 + spaceBetween` when `created_at` is truthy. -/
def dateAdv (c : Content) (s : ContentOptions) : ℚ :=
  if truthy c.created_at then s.dateAddedFontSize * (6 / 5) + s.spaceBetween else 0

/-- The vertical cursor when the title block is laid out. -/
def titleYpos (s : ContentOptions) : ℚ := metadataStartY s

/-- The vertical cursor when the description block is laid out. -/
def descYpos (c : Content) (measure : String → Str → ℚ) (s : ContentOptions) : ℚ :=
  metadataStartY s + titleAdv c measure s

/-- The vertical cursor when the date block is laid out. -/
def dateYpos (c : Content) (measure : String → Str → ℚ) (s : ContentOptions) : ℚ :=
  descYpos c measure s + descAdv c measure s

/-- The vertical cursor when the author block is laid out. -/
def authorYpos (c : Content) (measure : String → Str → ℚ) (s : ContentOptions) : ℚ :=
  dateYpos c measure s + dateAdv c s

/-- The final value of the running cursor `currentY` after all four
conditional blocks (the author block performs no further advance,
source lines 428–438). -/
def metadataFinalY (c : Content) (measure : String → Str → ℚ) (s : ContentOptions) : ℚ :=
  authorYpos c measure s

/-- The date text drawn for `created_at` (source lines 411–420): the locale
formatting when `new Date` parses to a valid date, otherwise the raw
string.  The external Date capability is modelled by `localeDate`, which
returns `none` exactly when the parse yields an invalid date. -/
def dateDisplay (c : Content) (localeDate : String → Option String) : String :=
  let raw := c.created_at.getD ""
  (localeDate raw).getD raw

/-- The four metadata field kinds, in their fixed source order. -/
inductive MetaField where
  | title
  | description
  | date
  | author
deriving DecidableEq

/-- One stacked metadata block: its kind, the cursor position at which its
first line is drawn, its per-line vertical step, and its text lines. -/
structure MetaBlock where
  kind : MetaField
  y : ℚ
  lineStep : ℚ
  lines : List Str
deriving DecidableEq

/-- The conditional metadata blocks of `addMetadata` (source lines 365–438),
in the fixed order title, description, date, author; a field that is not
truthy contributes no block and no cursor advance. -/
def metadataBlocks (c : Content) (measure : String → Str → ℚ)
    (localeDate : String → Option String) (s : ContentOptions) : List MetaBlock :=
  (if truthy c.title then
    [{ kind := MetaField.title, y := titleYpos s, lineStep := s.titleFontSize * (6 / 5),
       lines := wrappedTitle c measure s }]
  else [])
    ++ (if truthy c.description then
      [{ kind := MetaField.description, y := descYpos c measure s,
         lineStep := s.descriptionFontSize * (6 / 5), lines := wrappedDesc c measure s }]
    else [])
    ++ (if truthy c.created_at then
      [{ kind := MetaField.date, y := dateYpos c measure s,
         lineStep := s.dateAddedFontSize * (6 / 5),
         lines := [("Added: " ++ dateDisplay c localeDate).toList] }]
    else [])
    ++ (if truthy c.username then
      [{ kind := MetaField.author, y := authorYpos c measure s,
         lineStep := s.authorFontSize * (6 / 5),
         lines := [("By: " ++ c.username.getD "").toList] }]
    else [])

/-- The `fillText` operations of one metadata block: line `index` is drawn
at `y + index * lineStep` (source lines 372–378, 392–398, 422, 433–437). -/
def blockLineOps (x y step : ℚ) : List Str → ℕ → List DrawOp
  | [], _ => []
  | line :: rest, index =>
      DrawOp.fillTextOp line x (y + (index : ℚ) * step) :: blockLineOps x y step rest (index + 1)

/-- Vertical position of the code bitmap (source lines 455–456):
`canvasHeight - qrCodeSize - padding`. -/
def qrYpos (s : ContentOptions) : ℚ := s.canvasHeight - s.qrCodeSize - s.padding

/-- Horizontal position of the code bitmap (source lines 457–462):
`metadataX + (metadataWidth - qrCodeSize - padding * 2) / 2`. -/
def qrXpos (s : ContentOptions) : ℚ :=
  metadataX s + (s.metadataWidth - s.qrCodeSize - s.padding * 2) / 2

/-- The drawing operations of `addMetadata` (source lines 349–489): the
logo, the conditional metadata blocks, the white backing rectangle inset 5
pixels beyond the code bitmap, and the code bitmap itself. -/
def addMetadataOps (c : Content) (qrData : String) (measure : String → Str → ℚ)
    (localeDate : String → Option String) (s : ContentOptions) : List DrawOp :=
  DrawOp.drawLogoOp (metadataX s + s.padding) (metadataY s)
    :: ((metadataBlocks c measure localeDate s).map
        (fun b => blockLineOps (metadataX s + s.padding) b.y b.lineStep b.lines 0)).flatten
    ++ [DrawOp.fillRectOp (qrXpos s - 5) (qrYpos s - 5) (s.qrCodeSize + 10)
          (s.qrCodeSize + 10) "white",
        DrawOp.drawImageOp (qrXpos s) (qrYpos s) s.qrCodeSize s.qrCodeSize]

/-- Observable outcomes of one render's external asynchronous effects: the
subject-bitmap load with its decoded dimensions (`img.onload`/`img.onerror`,
source lines 188–254), the logo decode (`await image.decode()`, source
line 357), and the code-bitmap generation and load (`QRCode.toDataURL` and
`qrImg.onload`/`qrImg.onerror`, source lines 441–488). -/
structure AssetEnv where
  subjectLoads : Bool
  imgWidth : ℚ
  imgHeight : ℚ
  logoDecode : Except String Unit
  qrGen : Except String Unit

/-- `renderImageContent` (source lines 183–255): on load failure it rejects
with message `Failed to load image`; on success it draws the container
rectangles and the scaled, centred bitmap. -/
def renderImageContentOps (env : AssetEnv) (s : ContentOptions) :
    Except String (List DrawOp) :=
  if env.subjectLoads then
    let g := imageGeometry s env.imgWidth env.imgHeight
    Except.ok (containerOps s ++ [DrawOp.drawImageOp g.imageX g.imageY g.scaledWidth g.scaledHeight])
  else Except.error "Failed to load image"

/-- The content-variant dispatch of `generateContentWithQR`
(source lines 112–119): the text arm requires `type === "text"` and the
`text` property to exist, the image arm requires `type === "image"` and the
`imageUrl` property to exist; otherwise `Invalid content provided` is
thrown. -/
def contentStage (c : Content) (env : AssetEnv) (measure : String → Str → ℚ)
    (s : ContentOptions) : Except String (List DrawOp) :=
  if c.type = "text" ∧ c.text.isSome = true then
    Except.ok (renderTextContentOps (c.text.getD "").toList measure s)
  else if c.type = "image" ∧ c.imageUrl.isSome = true then
    renderImageContentOps env s
  else Except.error "Invalid content provided"

/-- `addMetadata` as a fallible stage (source lines 349–489): the logo
decode is awaited first, the code bitmap is generated and loaded last; on
success the stage contributes its drawing operations. -/
def addMetadataStage (c : Content) (qrData : String) (measure : String → Str → ℚ)
    (localeDate : String → Option String) (env : AssetEnv) (s : ContentOptions) :
    Except String (List DrawOp) :=
  match env.logoDecode with
  | Except.error m => Except.error m
  | Except.ok _ =>
    match env.qrGen with
    | Except.error m => Except.error m
    | Except.ok _ => Except.ok (addMetadataOps c qrData measure localeDate s)

/-- `generateContentWithQR` (source lines 65–134): base layout, content
dispatch, metadata plus code embedding, then serialisation of the surface
(modelled as the final operation list); any error of the body is re-thrown
wrapped in the fixed prefix `Failed to generate content: `, with the
source's `error.message || "Unknown error"` fallback (line 129) replacing
an empty (falsy) cause message by `Unknown error`. -/
def generateContentWithQR (c : Content) (qrData : String) (env : AssetEnv)
    (measure : String → Str → ℚ) (localeDate : String → Option String) :
    Except String (List DrawOp) :=
  let body : Except String (List DrawOp) :=
    match contentStage c env measure defaultSettings with
    | Except.error m => Except.error m
    | Except.ok contentOps =>
      match addMetadataStage c qrData measure localeDate env defaultSettings with
      | Except.error m => Except.error m
      | Except.ok metaOps =>
        Except.ok (drawBaseLayoutOps defaultSettings ++ contentOps ++ metaOps)
  match body with
  | Except.ok v => Except.ok v
  | Except.error m =>
    Except.error ("Failed to generate content: " ++ (if m = "" then "Unknown error" else m))

/-- Whether an `Except` result is a success. -/
def isOkE {α : Type} (e : Except String α) : Bool :=
  match e with
  | Except.ok _ => true
  | Except.error _ => false

/-! ## Lemmas about `splitSpace` and `wrapText` -/

theorem splitSpace_ne_nil (t : Str) : splitSpace t ≠ [] := by
  cases t with
  | nil => simp [splitSpace]
  | cons c cs =>
    cases h : splitSpace cs with
    | nil => simp [splitSpace, h]
    | cons w ws =>
      simp only [splitSpace, h]
      split <;> simp

theorem splitSpace_append_space (a b : Str) :
    splitSpace (a ++ ' ' :: b) = splitSpace a ++ splitSpace b := by
  induction a with
  | nil =>
    cases h : splitSpace b with
    | nil => exact absurd h (splitSpace_ne_nil b)
    | cons w ws => simp [splitSpace, h]
  | cons c a ih =>
    cases ha : splitSpace a with
    | nil => exact absurd ha (splitSpace_ne_nil a)
    | cons wa was =>
      have h2 : splitSpace (a ++ ' ' :: b) = wa :: (was ++ splitSpace b) := by
        rw [ih, ha]
        simp
      rw [List.cons_append]
      simp only [splitSpace, h2, ha]
      split <;> simp

theorem mem_splitSpace_no_space (t : Str) :
    ∀ w ∈ splitSpace t, ' ' ∉ w := by
  induction t with
  | nil =>
    intro w hw
    simp [splitSpace] at hw
    simp [hw]
  | cons c cs ih =>
    intro w hw
    cases h : splitSpace cs with
    | nil => exact absurd h (splitSpace_ne_nil cs)
    | cons w0 ws =>
      simp only [splitSpace, h] at hw
      by_cases hc : c = ' '
      · rw [if_pos hc] at hw
        rcases List.mem_cons.mp hw with hw | hw
        · simp [hw]
        · exact ih w (h ▸ hw)
      · rw [if_neg hc] at hw
        rcases List.mem_cons.mp hw with hw | hw
        · subst hw
          intro hmem
          rcases List.mem_cons.mp hmem with h' | h'
          · exact hc h'.symm
          · exact ih w0 (by rw [h]; exact List.mem_cons_self w0 ws) h'
        · exact ih w (by rw [h]; exact List.mem_cons_of_mem w0 hw)

theorem splitSpace_of_no_space (w : Str) (h : ' ' ∉ w) : splitSpace w = [w] := by
  induction w with
  | nil => simp [splitSpace]
  | cons c cs ih =>
    have hc : c ≠ ' ' := fun hc => h (by simp [hc])
    have hcs : ' ' ∉ cs := fun hm => h (List.mem_cons_of_mem c hm)
    simp only [splitSpace, ih hcs]
    rw [if_neg hc]

theorem dropEmpty_append (a b : List Str) :
    dropEmpty (a ++ b) = dropEmpty a ++ dropEmpty b := by
  induction a with
  | nil => simp [dropEmpty]
  | cons w ws ih =>
    by_cases hw : w = []
    · simp [dropEmpty, hw, ih]
    · simp [dropEmpty, hw, ih]

theorem lineWords_append_space (a b : Str) :
    lineWords (a ++ ' ' :: b) = lineWords a ++ lineWords b := by
  simp [lineWords, splitSpace_append_space, dropEmpty_append]

theorem lineWords_of_no_space (w : Str) (h : ' ' ∉ w) :
    lineWords w = if w = [] then [] else [w] := by
  rw [lineWords, splitSpace_of_no_space w h]
  by_cases hw : w = [] <;> simp [dropEmpty, hw]

theorem wrapTextLoop_words (measure : Str → ℚ) (maxWidth : ℚ) :
    ∀ (ws : List Str) (cur : Str) (lines : List Str),
      (∀ w ∈ ws, ' ' ∉ w) →
      ((wrapTextLoop measure maxWidth ws cur lines).map lineWords).flatten
        = (lines.map lineWords).flatten ++ lineWords cur ++ dropEmpty ws := by
  intro ws
  induction ws with
  | nil =>
    intro cur lines _
    by_cases hc : cur = []
    · simp [wrapTextLoop, hc, lineWords, splitSpace, dropEmpty]
    · simp [wrapTextLoop, hc, dropEmpty]
  | cons w ws ih =>
    intro cur lines hno
    have hw : ' ' ∉ w := hno w (List.mem_cons_self w ws)
    have hws : ∀ u ∈ ws, ' ' ∉ u := fun u hu => hno u (List.mem_cons_of_mem w hu)
    by_cases hcond : measure (cur ++ ' ' :: w) < maxWidth
    · rw [wrapTextLoop, if_pos hcond, ih _ _ hws, lineWords_append_space,
        lineWords_of_no_space w hw]
      by_cases hwe : w = []
      · simp [dropEmpty, hwe]
      · simp [dropEmpty, hwe]
    · rw [wrapTextLoop, if_neg hcond, ih _ _ hws, lineWords_of_no_space w hw]
      by_cases hwe : w = []
      · simp [dropEmpty, hwe]
      · simp [dropEmpty, hwe]

theorem wrapTextLoop_width (measure : Str → ℚ) (maxWidth : ℚ) (W : List Str) :
    ∀ (ws : List Str) (cur : Str) (lines : List Str),
      (∀ w ∈ ws, w ∈ W) →
      (measure cur < maxWidth ∨ cur ∈ W) →
      (∀ l ∈ lines, measure l < maxWidth ∨ l ∈ W) →
      ∀ l ∈ wrapTextLoop measure maxWidth ws cur lines,
        measure l < maxWidth ∨ l ∈ W := by
  intro ws
  induction ws with
  | nil =>
    intro cur lines _ hcur hlines l hl
    rw [wrapTextLoop] at hl
    by_cases hc : cur = []
    · rw [if_pos hc] at hl
      exact hlines l hl
    · rw [if_neg hc] at hl
      rcases List.mem_append.mp hl with h | h
      · exact hlines l h
      · rcases List.mem_singleton.mp h with rfl
        exact hcur
  | cons w ws ih =>
    intro cur lines hws hcur hlines l hl
    have hwW : w ∈ W := hws w (List.mem_cons_self w ws)
    have hws' : ∀ u ∈ ws, u ∈ W := fun u hu => hws u (List.mem_cons_of_mem w hu)
    rw [wrapTextLoop] at hl
    by_cases hcond : measure (cur ++ ' ' :: w) < maxWidth
    · rw [if_pos hcond] at hl
      exact ih _ _ hws' (Or.inl hcond) hlines l hl
    · rw [if_neg hcond] at hl
      refine ih _ _ hws' (Or.inr hwW) ?_ l hl
      intro u hu
      rcases List.mem_append.mp hu with h | h
      · exact hlines u h
      · rcases List.mem_singleton.mp h with rfl
        exact hcur

/-- C1: for every non-empty input string and maxWidth > 0, with a measuring
function monotone under string extension, every line produced by `wrapText`
measures at most maxWidth unless it is a single word of the input whose own
measure exceeds maxWidth, and the whitespace-normalised concatenation of
the words of all lines reconstructs the input's word sequence exactly. -/
theorem wrapText_sound (text : Str) (measure : Str → ℚ) (maxWidth : ℚ)
    (htext : text ≠ []) (hmax : 0 < maxWidth)
    (hmono : ∀ s t : Str, measure s ≤ measure (s ++ t)) :
    (∀ line ∈ wrapText text measure maxWidth,
        measure line ≤ maxWidth ∨ (line ∈ splitSpace text ∧ maxWidth < measure line))
      ∧ ((wrapText text measure maxWidth).map lineWords).flatten
          = dropEmpty (splitSpace text) := by
  cases hw : splitSpace text with
  | nil => exact absurd hw (splitSpace_ne_nil text)
  | cons w ws =>
    have hwmem : w ∈ splitSpace text := by
      rw [hw]
      exact List.mem_cons_self w ws
    have hsub : ∀ u ∈ ws, u ∈ splitSpace text := fun u hu => by
      rw [hw]
      exact List.mem_cons_of_mem w hu
    have hnosp : ∀ u ∈ ws, ' ' ∉ u := fun u hu => mem_splitSpace_no_space text u (hsub u hu)
    have hwno : ' ' ∉ w := mem_splitSpace_no_space text w hwmem
    have hunfold : wrapText text measure maxWidth = wrapTextLoop measure maxWidth ws w [] := by
      simp [wrapText, hw]
    constructor
    · intro line hline
      rw [hunfold] at hline
      have hinv := wrapTextLoop_width measure maxWidth (splitSpace text) ws w []
        hsub (Or.inr hwmem) (by intro l hl; simp at hl) line hline
      rcases hinv with h | h
      · exact Or.inl h.le
      · rcases le_or_lt (measure line) maxWidth with h2 | h2
        · exact Or.inl h2
        · exact Or.inr ⟨hw ▸ h, h2⟩
    · rw [hunfold, wrapTextLoop_words measure maxWidth ws w [] hnosp,
        lineWords_of_no_space w hwno]
      by_cases hwe : w = [] <;> simp [dropEmpty, hwe]

/-- Witness for C1 at the concrete input "ab cd ef gh", character-count
measuring, and maxWidth 6 (wrapping to ["ab cd", "ef gh"]). -/
theorem wrapText_sound_witness :
    ("ab cd ef gh".toList ≠ [] ∧ (0 : ℚ) < 6)
      ∧ ((∀ line ∈ wrapText "ab cd ef gh".toList (fun l => (l.length : ℚ)) 6,
            (line.length : ℚ) ≤ 6
              ∨ (line ∈ splitSpace "ab cd ef gh".toList ∧ 6 < (line.length : ℚ)))
          ∧ ((wrapText "ab cd ef gh".toList (fun l => (l.length : ℚ)) 6).map lineWords).flatten
              = dropEmpty (splitSpace "ab cd ef gh".toList)) :=
  ⟨⟨by decide, by decide⟩,
    wrapText_sound "ab cd ef gh".toList (fun l => (l.length : ℚ)) 6 (by decide) (by decide)
      (fun s t => by
        simp only [List.length_append]
        exact_mod_cast Nat.le_add_right s.length t.length)⟩

/-! ## Metadata stacking lemmas -/

theorem titleAdv_pos (c : Content) (measure : String → Str → ℚ) :
    truthy c.title = true → 0 < titleAdv c measure defaultSettings := by
  intro h
  simp [titleAdv, h, defaultSettings]
  positivity

theorem titleAdv_zero (c : Content) (measure : String → Str → ℚ) :
    truthy c.title = false → titleAdv c measure defaultSettings = 0 := by
  intro h
  simp [titleAdv, h]

theorem descAdv_pos (c : Content) (measure : String → Str → ℚ) :
    truthy c.description = true → 0 < descAdv c measure defaultSettings := by
  intro h
  simp [descAdv, h, defaultSettings]
  positivity

theorem descAdv_zero (c : Content) (measure : String → Str → ℚ) :
    truthy c.description = false → descAdv c measure defaultSettings = 0 := by
  intro h
  simp [descAdv, h]

theorem dateAdv_pos (c : Content) :
    truthy c.created_at = true → 0 < dateAdv c defaultSettings := by
  intro h
  simp [dateAdv, h, defaultSettings]
  norm_num

theorem dateAdv_zero (c : Content) :
    truthy c.created_at = false → dateAdv c defaultSettings = 0 := by
  intro h
  simp [dateAdv, h]

/-- C2: with the composer's settings, the metadata compositor creates one
block per truthy field, in the fixed order title, description, date,
author, with strictly increasing vertical positions; a descriptor reduced
to its title alone ends with the cursor advanced only by the title block. -/
theorem metadata_stacking (c : Content) (measure : String → Str → ℚ)
    (localeDate : String → Option String) :
    ((metadataBlocks c measure localeDate defaultSettings).map (fun b => b.kind)
        = (if truthy c.title then [MetaField.title] else [])
          ++ (if truthy c.description then [MetaField.description] else [])
          ++ (if truthy c.created_at then [MetaField.date] else [])
          ++ (if truthy c.username then [MetaField.author] else []))
      ∧ List.Chain' (fun a b => a.y < b.y) (metadataBlocks c measure localeDate defaultSettings)
      ∧ metadataFinalY { c with description := none, created_at := none, username := none }
            measure defaultSettings
          = metadataStartY defaultSettings + titleAdv c measure defaultSettings := by
  refine ⟨?_, ?_, ?_⟩
  · cases ht : truthy c.title <;> cases hd : truthy c.description <;>
      cases hdt : truthy c.created_at <;> cases hu : truthy c.username <;>
      simp [metadataBlocks, ht, hd, hdt, hu]
  · have hT := titleAdv_pos c measure
    have hT0 := titleAdv_zero c measure
    have hD := descAdv_pos c measure
    have hD0 := descAdv_zero c measure
    have hDt := dateAdv_pos c
    have hDt0 := dateAdv_zero c
    cases ht : truthy c.title <;> cases hd : truthy c.description <;>
      cases hdt : truthy c.created_at <;> cases hu : truthy c.username <;>
      simp_all [metadataBlocks, titleYpos, descYpos, dateYpos, authorYpos,
        List.chain'_cons, List.chain'_singleton, List.chain'_nil]
  · simp [metadataFinalY, authorYpos, dateYpos, descYpos, dateAdv, descAdv, truthy,
      titleAdv, wrappedTitle]

/-- C3: for any bitmap with positive dimensions fitted into a positive
inner sub-area, `renderImageContent`'s geometry preserves the aspect ratio
exactly, fits within the sub-area with equality on at least one axis, and
centres the scaled bitmap on both axes. -/
theorem image_fit_geometry (s : ContentOptions) (imgWidth imgHeight : ℚ)
    (hw : 0 < imgWidth) (hh : 0 < imgHeight)
    (hA : 0 < contentInnerW s) (hB : 0 < contentInnerH s) :
    0 < (imageGeometry s imgWidth imgHeight).scaledHeight
      ∧ (imageGeometry s imgWidth imgHeight).scaledWidth
          / (imageGeometry s imgWidth imgHeight).scaledHeight = imgWidth / imgHeight
      ∧ (imageGeometry s imgWidth imgHeight).scaledWidth ≤ contentInnerW s
      ∧ (imageGeometry s imgWidth imgHeight).scaledHeight ≤ contentInnerH s
      ∧ ((imageGeometry s imgWidth imgHeight).scaledWidth = contentInnerW s
          ∨ (imageGeometry s imgWidth imgHeight).scaledHeight = contentInnerH s)
      ∧ (imageGeometry s imgWidth imgHeight).imageX - (contentContainerX s + s.containerPadding)
          = (contentContainerX s + s.containerPadding + contentInnerW s)
            - ((imageGeometry s imgWidth imgHeight).imageX
                + (imageGeometry s imgWidth imgHeight).scaledWidth)
      ∧ (imageGeometry s imgWidth imgHeight).imageY - (contentContainerY s + s.containerPadding)
          = (contentContainerY s + s.containerPadding + contentInnerH s)
            - ((imageGeometry s imgWidth imgHeight).imageY
                + (imageGeometry s imgWidth imgHeight).scaledHeight) := by
  have ha : 0 < contentInnerW s / imgWidth := div_pos hA hw
  have hb : 0 < contentInnerH s / imgHeight := div_pos hB hh
  have hscpos : 0 < min (contentInnerW s / imgWidth) (contentInnerH s / imgHeight) :=
    lt_min ha hb
  refine ⟨?_, ?_, ?_, ?_, ?_, ?_, ?_⟩
  · simpa [imageGeometry] using mul_pos hh hscpos
  · simp only [imageGeometry]
    rw [mul_comm imgWidth _, mul_comm imgHeight _, mul_div_mul_left _ _ hscpos.ne']
  · simp only [imageGeometry]
    calc imgWidth * min (contentInnerW s / imgWidth) (contentInnerH s / imgHeight)
        ≤ imgWidth * (contentInnerW s / imgWidth) :=
          mul_le_mul_of_nonneg_left (min_le_left _ _) hw.le
      _ = contentInnerW s := by field_simp
  · simp only [imageGeometry]
    calc imgHeight * min (contentInnerW s / imgWidth) (contentInnerH s / imgHeight)
        ≤ imgHeight * (contentInnerH s / imgHeight) :=
          mul_le_mul_of_nonneg_left (min_le_right _ _) hh.le
      _ = contentInnerH s := by field_simp
  · rcases min_choice (contentInnerW s / imgWidth) (contentInnerH s / imgHeight) with h | h
    · left
      simp only [imageGeometry, h]
      field_simp
    · right
      simp only [imageGeometry, h]
      field_simp
  · simp only [imageGeometry]
    ring
  · simp only [imageGeometry]
    ring

/-- Witness for C3 at the composer's settings and a 1000×500 bitmap
(scenario B of the spec: scale limited by the sub-area width). -/
theorem image_fit_geometry_witness :
    ((0 : ℚ) < 1000 ∧ (0 : ℚ) < 500
        ∧ 0 < contentInnerW defaultSettings ∧ 0 < contentInnerH defaultSettings)
      ∧ (0 < (imageGeometry defaultSettings 1000 500).scaledHeight
          ∧ (imageGeometry defaultSettings 1000 500).scaledWidth
              / (imageGeometry defaultSettings 1000 500).scaledHeight = 1000 / 500
          ∧ (imageGeometry defaultSettings 1000 500).scaledWidth ≤ contentInnerW defaultSettings
          ∧ (imageGeometry defaultSettings 1000 500).scaledHeight ≤ contentInnerH defaultSettings
          ∧ ((imageGeometry defaultSettings 1000 500).scaledWidth = contentInnerW defaultSettings
              ∨ (imageGeometry defaultSettings 1000 500).scaledHeight
                  = contentInnerH defaultSettings)
          ∧ (imageGeometry defaultSettings 1000 500).imageX
                - (contentContainerX defaultSettings + defaultSettings.containerPadding)
              = (contentContainerX defaultSettings + defaultSettings.containerPadding
                    + contentInnerW defaultSettings)
                - ((imageGeometry defaultSettings 1000 500).imageX
                    + (imageGeometry defaultSettings 1000 500).scaledWidth)
          ∧ (imageGeometry defaultSettings 1000 500).imageY
                - (contentContainerY defaultSettings + defaultSettings.containerPadding)
              = (contentContainerY defaultSettings + defaultSettings.containerPadding
                    + contentInnerH defaultSettings)
                - ((imageGeometry defaultSettings 1000 500).imageY
                    + (imageGeometry defaultSettings 1000 500).scaledHeight)) :=
  ⟨⟨by norm_num, by norm_num,
      by norm_num [contentInnerW, contentContainerW, defaultSettings],
      by norm_num [contentInnerH, contentContainerH, defaultSettings]⟩,
    image_fit_geometry defaultSettings 1000 500 (by norm_num) (by norm_num)
      (by norm_num [contentInnerW, contentContainerW, defaultSettings])
      (by norm_num [contentInnerH, contentContainerH, defaultSettings])⟩

/-! ## Layout sum and code-embedding geometry -/

/-- C9 counterexample: with the composer's hard-coded settings the two
panel widths already sum to the full canvas width, so adding any positive
frame or divider allowance (the divider alone, divider plus the two side
frames, or all four frame insets) breaks the claimed equality. -/
theorem layout_panel_sum_cex :
    ¬ (defaultSettings.contentWidth + defaultSettings.metadataWidth
        + defaultSettings.frameWidth = defaultSettings.canvasWidth)
      ∧ ¬ (defaultSettings.contentWidth + defaultSettings.metadataWidth
          + 3 * defaultSettings.frameWidth = defaultSettings.canvasWidth)
      ∧ ¬ (defaultSettings.contentWidth + defaultSettings.metadataWidth
          + 5 * defaultSettings.frameWidth = defaultSettings.canvasWidth) := by
  norm_num [defaultSettings]

/-- C9 (amended): the composer's settings satisfy
`contentPanelWidth + metadataPanelWidth = canvasWidth` exactly, with a
positive frame width, so the frame and divider encroach on the panels
instead of adding to the sum: the declared metadata panel width even
overruns the canvas when laid after the divider. -/
theorem layout_panel_sum :
    defaultSettings.contentWidth + defaultSettings.metadataWidth = defaultSettings.canvasWidth
      ∧ 0 < defaultSettings.frameWidth
      ∧ defaultSettings.canvasWidth
          < metadataX defaultSettings + defaultSettings.metadataWidth := by
  norm_num [defaultSettings, metadataX]

theorem getLast?_append_pair {α : Type} (l : List α) (a b : α) :
    (l ++ [a, b]).getLast? = some b := by
  rw [List.getLast?_append_cons]
  rfl

theorem dropLast_append_pair {α : Type} (l : List α) (a b : α) :
    (l ++ [a, b]).dropLast = l ++ [a] := by
  have h : l ++ [a, b] = (l ++ [a]) ++ [b] := by simp
  rw [h]
  simp

theorem getLast?_append_single {α : Type} (l : List α) (a : α) :
    (l ++ [a]).getLast? = some a := by
  rw [List.getLast?_append_cons]
  rfl

/-- `addMetadataOps` splits into the logo-and-metadata-text part followed by
exactly the backing rectangle and the code bitmap. -/
theorem addMetadataOps_split (c : Content) (q : String) (measure : String → Str → ℚ)
    (localeDate : String → Option String) (s : ContentOptions) :
    addMetadataOps c q measure localeDate s
      = (DrawOp.drawLogoOp (metadataX s + s.padding) (metadataY s)
          :: ((metadataBlocks c measure localeDate s).map
              (fun b => blockLineOps (metadataX s + s.padding) b.y b.lineStep b.lines 0)).flatten)
        ++ [DrawOp.fillRectOp (qrXpos s - 5) (qrYpos s - 5) (s.qrCodeSize + 10)
              (s.qrCodeSize + 10) "white",
            DrawOp.drawImageOp (qrXpos s) (qrYpos s) s.qrCodeSize s.qrCodeSize] := rfl

/-- C4 counterexample: with the composer's settings the code bitmap is not
centred within the padded region of the metadata panel — its left margin
from the padded left edge differs from its right margin to the padded
right edge (they are -7 and 25 pixels). -/
theorem code_embed_centering_cex :
    ¬ (qrXpos defaultSettings - (metadataX defaultSettings + defaultSettings.padding)
        = (metadataX defaultSettings + defaultSettings.metadataWidth - defaultSettings.padding)
          - (qrXpos defaultSettings + defaultSettings.qrCodeSize)) := by
  norm_num [qrXpos, metadataX, defaultSettings]

/-- C4 (amended): the code bitmap's top is anchored at
`canvasHeight - qrCodeSize - padding`; horizontally it is centred within a
span of the panel's padded width anchored at the panel's unpadded left
edge (equal margins with respect to `[metadataX, metadataX +
metadataWidth - 2 * padding]`, i.e. `padding` to the left of a centring
within the padded region); a white backing rectangle extending 5 pixels
beyond the code bitmap on all four sides is painted immediately before the
code bitmap, after all metadata text. -/
theorem code_embed_geometry (s : ContentOptions) (c : Content) (q : String)
    (measure : String → Str → ℚ) (localeDate : String → Option String) :
    qrYpos s = s.canvasHeight - s.qrCodeSize - s.padding
      ∧ qrXpos s - metadataX s
          = (metadataX s + s.metadataWidth - s.padding * 2) - (qrXpos s + s.qrCodeSize)
      ∧ (addMetadataOps c q measure localeDate s).getLast?
          = some (DrawOp.drawImageOp (qrXpos s) (qrYpos s) s.qrCodeSize s.qrCodeSize)
      ∧ (addMetadataOps c q measure localeDate s).dropLast.getLast?
          = some (DrawOp.fillRectOp (qrXpos s - 5) (qrYpos s - 5) (s.qrCodeSize + 10)
              (s.qrCodeSize + 10) "white") := by
  refine ⟨rfl, ?_, ?_, ?_⟩
  · rw [qrXpos]
    ring
  · rw [addMetadataOps_split, getLast?_append_pair]
  · rw [addMetadataOps_split, dropLast_append_pair, getLast?_append_single]

/-- C10: the position of the backing rectangle and of the code bitmap is a
function of the settings alone — identical across any two render requests
with the same settings, with top `canvasHeight - qrCodeSize - padding` —
and every metadata text operation is painted strictly before the backing
rectangle, which can therefore paint over overlong metadata text. -/
theorem code_position_content_independent (s : ContentOptions) (c1 c2 : Content)
    (q1 q2 : String) (m1 m2 : String → Str → ℚ) (ld1 ld2 : String → Option String) :
    ((addMetadataOps c1 q1 m1 ld1 s).getLast? = (addMetadataOps c2 q2 m2 ld2 s).getLast?)
      ∧ ((addMetadataOps c1 q1 m1 ld1 s).dropLast.getLast?
          = (addMetadataOps c2 q2 m2 ld2 s).dropLast.getLast?)
      ∧ (addMetadataOps c1 q1 m1 ld1 s).getLast?
          = some (DrawOp.drawImageOp
              (metadataX s + (s.metadataWidth - s.qrCodeSize - s.padding * 2) / 2)
              (s.canvasHeight - s.qrCodeSize - s.padding) s.qrCodeSize s.qrCodeSize)
      ∧ ∀ op ∈ addMetadataOps c1 q1 m1 ld1 s, op.isFillTextOp = true →
          op ∈ (addMetadataOps c1 q1 m1 ld1 s).dropLast.dropLast := by
  refine ⟨?_, ?_, ?_, ?_⟩
  · rw [addMetadataOps_split, getLast?_append_pair, addMetadataOps_split, getLast?_append_pair]
  · rw [addMetadataOps_split, dropLast_append_pair, getLast?_append_single,
      addMetadataOps_split, dropLast_append_pair, getLast?_append_single]
  · rw [addMetadataOps_split, getLast?_append_pair, qrXpos, qrYpos, metadataX]
  · intro op hop hft
    rw [addMetadataOps_split] at hop
    rw [addMetadataOps_split, dropLast_append_pair, List.dropLast_concat]
    rcases List.mem_append.mp hop with h | h
    · exact h
    · rcases List.mem_cons.mp h with rfl | h2
      · simp [DrawOp.isFillTextOp] at hft
      · rcases List.mem_singleton.mp h2 with rfl
        simp [DrawOp.isFillTextOp] at hft

/-! ## Composer error propagation and dispatch -/

/-- C5 counterexample: two renders whose failures arise in different stages
(the content stage's subject-bitmap load versus the code-embedding stage)
propagate the identical error, so the propagated message does not identify
which stage failed: the wrapping prefix is the stage-independent
`Failed to generate content: `. -/
theorem composer_error_stage_ambiguous_cex :
    generateContentWithQR { type := "image", imageUrl := some "https://x/img.png" } "x"
        { subjectLoads := false, imgWidth := 1, imgHeight := 1,
          logoDecode := Except.ok (), qrGen := Except.ok () }
        (fun _ _ => 0) (fun _ => none)
      = Except.error "Failed to generate content: Failed to load image"
    ∧ generateContentWithQR { type := "text", text := some "hi" } "x"
        { subjectLoads := true, imgWidth := 1, imgHeight := 1,
          logoDecode := Except.ok (), qrGen := Except.error "Failed to load image" }
        (fun _ _ => 0) (fun _ => none)
      = Except.error "Failed to generate content: Failed to load image"
    ∧ isOkE (contentStage { type := "image", imageUrl := some "https://x/img.png" }
        { subjectLoads := false, imgWidth := 1, imgHeight := 1,
          logoDecode := Except.ok (), qrGen := Except.ok () }
        (fun _ _ => 0) defaultSettings) = false
    ∧ isOkE (contentStage { type := "text", text := some "hi" }
        { subjectLoads := true, imgWidth := 1, imgHeight := 1,
          logoDecode := Except.ok (), qrGen := Except.error "Failed to load image" }
        (fun _ _ => 0) defaultSettings) = true :=
  ⟨rfl, rfl, rfl, rfl⟩

/-- C5 (amended): whichever stage fails first — content dispatch or
rendering, logo decode, or code generation — the composer propagates a
single error wrapping the underlying cause's message (or `Unknown error`
when that message is empty) in the fixed, stage-independent prefix
`Failed to generate content: `, and no operation list is returned for that
render. -/
theorem composer_error_wrapping (c : Content) (q : String) (env : AssetEnv)
    (measure : String → Str → ℚ) (localeDate : String → Option String) (msg : String)
    (h : contentStage c env measure defaultSettings = Except.error msg
        ∨ (isOkE (contentStage c env measure defaultSettings) = true
            ∧ env.logoDecode = Except.error msg)
        ∨ (isOkE (contentStage c env measure defaultSettings) = true
            ∧ env.logoDecode = Except.ok () ∧ env.qrGen = Except.error msg)) :
    generateContentWithQR c q env measure localeDate
        = Except.error ("Failed to generate content: "
            ++ (if msg = "" then "Unknown error" else msg))
      ∧ isOkE (generateContentWithQR c q env measure localeDate) = false := by
  have hmain : generateContentWithQR c q env measure localeDate
      = Except.error ("Failed to generate content: "
          ++ (if msg = "" then "Unknown error" else msg)) := by
    rcases h with h | ⟨hok, hlogo⟩ | ⟨hok, hlogo, hqr⟩
    · simp [generateContentWithQR, h]
    · cases hcs : contentStage c env measure defaultSettings with
      | error m => rw [hcs] at hok; simp [isOkE] at hok
      | ok ops => simp [generateContentWithQR, hcs, addMetadataStage, hlogo]
    · cases hcs : contentStage c env measure defaultSettings with
      | error m => rw [hcs] at hok; simp [isOkE] at hok
      | ok ops => simp [generateContentWithQR, hcs, addMetadataStage, hlogo, hqr]
  exact ⟨hmain, by rw [hmain]; rfl⟩

/-- Witness for C5 at a concrete render whose code generation fails with
message "boom". -/
theorem composer_error_wrapping_witness :
    (isOkE (contentStage { type := "text", text := some "hi" }
          { subjectLoads := true, imgWidth := 1, imgHeight := 1,
            logoDecode := Except.ok (), qrGen := Except.error "boom" }
          (fun _ _ => 0) defaultSettings) = true
        ∧ AssetEnv.qrGen
            { subjectLoads := true, imgWidth := 1, imgHeight := 1,
              logoDecode := Except.ok (), qrGen := Except.error "boom" }
          = Except.error "boom")
      ∧ (generateContentWithQR { type := "text", text := some "hi" } "x"
            { subjectLoads := true, imgWidth := 1, imgHeight := 1,
              logoDecode := Except.ok (), qrGen := Except.error "boom" }
            (fun _ _ => 0) (fun _ => none)
          = Except.error ("Failed to generate content: "
              ++ (if "boom" = "" then "Unknown error" else "boom"))
        ∧ isOkE (generateContentWithQR { type := "text", text := some "hi" } "x"
            { subjectLoads := true, imgWidth := 1, imgHeight := 1,
              logoDecode := Except.ok (), qrGen := Except.error "boom" }
            (fun _ _ => 0) (fun _ => none)) = false) :=
  ⟨⟨rfl, rfl⟩,
    composer_error_wrapping { type := "text", text := some "hi" } "x"
      { subjectLoads := true, imgWidth := 1, imgHeight := 1,
        logoDecode := Except.ok (), qrGen := Except.error "boom" }
      (fun _ _ => 0) (fun _ => none) "boom" (Or.inr (Or.inr ⟨rfl, rfl, rfl⟩))⟩

/-- C6 counterexample: a text-variant descriptor whose `text` property is
present but equal to the empty string renders successfully (the dispatch
tests property existence, not non-emptiness), instead of failing with the
unsupported-content error the claim requires. -/
theorem composer_empty_text_renders_cex :
    isOkE (generateContentWithQR { type := "text", text := some "" } "https://example.com"
        { subjectLoads := true, imgWidth := 1, imgHeight := 1,
          logoDecode := Except.ok (), qrGen := Except.ok () }
        (fun _ _ => 0) (fun _ => none)) = true := rfl

/-- C6 (amended): when the external loads succeed, the composer fails —
necessarily with the wrapped `Invalid content provided` error — exactly
when the descriptor matches neither dispatch arm, where each arm tests the
content type and the existence (not non-emptiness) of its required field;
in particular a text descriptor with empty text renders. -/
theorem composer_dispatch (c : Content) (q : String) (env : AssetEnv)
    (measure : String → Str → ℚ) (localeDate : String → Option String)
    (h1 : env.subjectLoads = true) (h2 : env.logoDecode = Except.ok ())
    (h3 : env.qrGen = Except.ok ()) :
    (isOkE (generateContentWithQR c q env measure localeDate) = false
        ↔ ¬ (c.type = "text" ∧ c.text.isSome = true)
          ∧ ¬ (c.type = "image" ∧ c.imageUrl.isSome = true))
      ∧ (generateContentWithQR c q env measure localeDate
            = Except.error "Failed to generate content: Invalid content provided"
          ↔ ¬ (c.type = "text" ∧ c.text.isSome = true)
            ∧ ¬ (c.type = "image" ∧ c.imageUrl.isSome = true)) := by
  by_cases ht : c.type = "text" ∧ c.text.isSome = true
  · simp [generateContentWithQR, contentStage, addMetadataStage, h2, h3, ht, isOkE]
  · by_cases hi : c.type = "image" ∧ c.imageUrl.isSome = true
    · simp [generateContentWithQR, contentStage, renderImageContentOps, addMetadataStage,
        h1, h2, h3, ht, hi, isOkE]
    · simp [generateContentWithQR, contentStage, addMetadataStage, h2, h3, ht, hi, isOkE]

/-- Witness for C6 at a descriptor matching neither variant. -/
theorem composer_dispatch_witness :
    (AssetEnv.subjectLoads
          { subjectLoads := true, imgWidth := 1, imgHeight := 1,
            logoDecode := Except.ok (), qrGen := Except.ok () } = true
        ∧ AssetEnv.logoDecode
            { subjectLoads := true, imgWidth := 1, imgHeight := 1,
              logoDecode := Except.ok (), qrGen := Except.ok () } = Except.ok ()
        ∧ AssetEnv.qrGen
            { subjectLoads := true, imgWidth := 1, imgHeight := 1,
              logoDecode := Except.ok (), qrGen := Except.ok () } = Except.ok ())
      ∧ ((isOkE (generateContentWithQR { type := "video" } "x"
              { subjectLoads := true, imgWidth := 1, imgHeight := 1,
                logoDecode := Except.ok (), qrGen := Except.ok () }
              (fun _ _ => 0) (fun _ => none)) = false
            ↔ ¬ (({ type := "video" } : Content).type = "text"
                  ∧ ({ type := "video" } : Content).text.isSome = true)
              ∧ ¬ (({ type := "video" } : Content).type = "image"
                  ∧ ({ type := "video" } : Content).imageUrl.isSome = true))
          ∧ (generateContentWithQR { type := "video" } "x"
                { subjectLoads := true, imgWidth := 1, imgHeight := 1,
                  logoDecode := Except.ok (), qrGen := Except.ok () }
                (fun _ _ => 0) (fun _ => none)
              = Except.error "Failed to generate content: Invalid content provided"
            ↔ ¬ (({ type := "video" } : Content).type = "text"
                  ∧ ({ type := "video" } : Content).text.isSome = true)
              ∧ ¬ (({ type := "video" } : Content).type = "image"
                  ∧ ({ type := "video" } : Content).imageUrl.isSome = true))) :=
  ⟨⟨rfl, rfl, rfl⟩,
    composer_dispatch { type := "video" } "x"
      { subjectLoads := true, imgWidth := 1, imgHeight := 1,
        logoDecode := Except.ok (), qrGen := Except.ok () }
      (fun _ _ => 0) (fun _ => none) rfl rfl rfl⟩

/-- C8: for a present non-empty `created_at`, the metadata compositor
renders exactly one date block, prefixed by the fixed label `Added: `,
showing the locale-formatted date when the string parses and the raw
string verbatim otherwise; the render's success never depends on the
`created_at` value. -/
theorem metadata_date_fallback (c : Content) (measure : String → Str → ℚ)
    (localeDate : String → Option String) (ds : String)
    (h1 : c.created_at = some ds) (h2 : ds ≠ "") :
    ((metadataBlocks c measure localeDate defaultSettings).filter
          (fun b => decide (b.kind = MetaField.date))).map (fun b => b.lines)
        = [[("Added: " ++ ((localeDate ds).getD ds)).toList]]
      ∧ ∀ (q : String) (env : AssetEnv) (v : Option String),
          isOkE (generateContentWithQR { c with created_at := v } q env measure localeDate)
            = isOkE (generateContentWithQR c q env measure localeDate) := by
  constructor
  · have htr : truthy (some ds) = true := by simp [truthy, h2]
    cases ht : truthy c.title <;> cases hd : truthy c.description <;>
      cases hu : truthy c.username <;>
      simp [metadataBlocks, ht, hd, hu, dateDisplay, h1, htr]
  · intro q env v
    have hcs : contentStage { c with created_at := v } env measure defaultSettings
        = contentStage c env measure defaultSettings := rfl
    cases hc : contentStage c env measure defaultSettings <;>
      cases hl : env.logoDecode <;> cases hq : env.qrGen <;>
      simp [generateContentWithQR, addMetadataStage, hcs, hc, hl, hq, isOkE]

/-- Witness for C8 at scenario C of the spec: `created_at = "not-a-date"`
with a Date capability that fails to parse it. -/
theorem metadata_date_fallback_witness :
    (({ type := "text", text := some "hi", created_at := some "not-a-date" } : Content).created_at
          = some "not-a-date"
        ∧ "not-a-date" ≠ "")
      ∧ (((metadataBlocks { type := "text", text := some "hi", created_at := some "not-a-date" }
              (fun _ _ => 0) (fun _ => none) defaultSettings).filter
            (fun b => decide (b.kind = MetaField.date))).map (fun b => b.lines)
          = [[("Added: " ++ (((fun _ => (none : Option String)) "not-a-date").getD
                "not-a-date")).toList]]
        ∧ ∀ (q : String) (env : AssetEnv) (v : Option String),
            isOkE (generateContentWithQR
                { ({ type := "text", text := some "hi",
                      created_at := some "not-a-date" } : Content) with
                    created_at := v }
                q env (fun _ _ => 0) (fun _ => none))
              = isOkE (generateContentWithQR
                  { type := "text", text := some "hi", created_at := some "not-a-date" }
                  q env (fun _ _ => 0) (fun _ => none))) :=
  ⟨⟨rfl, by decide⟩,
    metadata_date_fallback { type := "text", text := some "hi", created_at := some "not-a-date" }
      (fun _ _ => 0) (fun _ => none) "not-a-date" rfl (by decide)⟩

/-! ## Body text truncation -/

theorem mem_drawTextLines (textX textY lineHeight bound : ℚ) :
    ∀ (lines : List Str) (start : ℕ) (op : DrawOp),
      (op ∈ drawTextLines textX textY lineHeight bound lines start
        ↔ ∃ j : ℕ, ∃ hj : j < lines.length,
            textY + (((start + j : ℕ) : ℚ) + 1) * lineHeight < bound
              ∧ op = DrawOp.fillTextOp (lines.get ⟨j, hj⟩) textX
                  (textY + ((start + j : ℕ) : ℚ) * lineHeight)) := by
  intro lines
  induction lines with
  | nil =>
    intro start op
    simp [drawTextLines]
  | cons l rest ih =>
    intro start op
    rw [drawTextLines, List.mem_append]
    constructor
    · intro h
      rcases h with h | h
      · by_cases hc : textY + ((start : ℚ) + 1) * lineHeight < bound
        · rw [if_pos hc] at h
          rcases List.mem_singleton.mp h with rfl
          exact ⟨0, Nat.succ_pos _, by simpa using hc, by simp⟩
        · rw [if_neg hc] at h
          simp at h
      · rcases (ih (start + 1) op).mp h with ⟨j, hj, hcond, heq⟩
        have harith : start + 1 + j = start + (j + 1) := by omega
        rw [harith] at hcond heq
        exact ⟨j + 1, Nat.succ_lt_succ hj, hcond, by simpa using heq⟩
    · rintro ⟨j, hj, hcond, heq⟩
      cases j with
      | zero =>
        left
        have hc : textY + ((start : ℚ) + 1) * lineHeight < bound := by simpa using hcond
        rw [if_pos hc, heq]
        simp
      | succ j =>
        right
        have harith : start + (j + 1) = start + 1 + j := by omega
        rw [harith] at hcond heq
        exact (ih (start + 1) op).mpr ⟨j, Nat.lt_of_succ_lt_succ hj, hcond, by simpa using heq⟩

theorem textLineHeight_ne_zero : textLineHeight ≠ 0 := by
  norm_num [textLineHeight, bodyTextSize]

/-- When no tentative line ever measures below the maximum width, the
wrapping loop pushes every word onto its own line. -/
theorem wrapTextLoop_allPush (measure : Str → ℚ) (maxWidth : ℚ)
    (h : ∀ l : Str, ¬ measure l < maxWidth) :
    ∀ (ws : List Str) (cur : Str) (lines : List Str),
      cur ≠ [] → (∀ w ∈ ws, w ≠ []) →
      wrapTextLoop measure maxWidth ws cur lines = lines ++ cur :: ws := by
  intro ws
  induction ws with
  | nil =>
    intro cur lines hcur _
    rw [wrapTextLoop, if_neg hcur]
  | cons w ws ih =>
    intro cur lines hcur hws
    rw [wrapTextLoop, if_neg (h _)]
    rw [ih w (lines ++ [cur]) (hws w (List.mem_cons_self w ws))
      (fun u hu => hws u (List.mem_cons_of_mem w hu))]
    simp

/-- C7 counterexample: rendering twenty one-word-per-line body lines with
the composer's settings, line index 19 has its top at 457.6, strictly above
the bottom bound 478, yet it is not drawn, because the skip condition tests
the line's bottom (`textY + (index + 1) * lineHeight`), not its top. -/
theorem renderText_truncation_cex :
    (wrapText ("a a a a a a a a a a a a a a a a a a a a").toList
          (fun _ => (1000 : ℚ)) (textAvailWidth defaultSettings)).length = 20
      ∧ textStartY defaultSettings + ((19 : ℕ) : ℚ) * textLineHeight
          < textBottomBound defaultSettings
      ∧ DrawOp.fillTextOp ['a'] (textStartX defaultSettings)
            (textStartY defaultSettings + ((19 : ℕ) : ℚ) * textLineHeight)
          ∉ renderTextContentOps ("a a a a a a a a a a a a a a a a a a a a").toList
              (fun _ _ => (1000 : ℚ)) defaultSettings := by
  have hnl : ∀ l : Str, ¬ ((1000 : ℚ) < textAvailWidth defaultSettings) := by
    intro l
    norm_num [textAvailWidth, contentContainerW, defaultSettings]
  have hsplit : splitSpace ("a a a a a a a a a a a a a a a a a a a a").toList
      = List.replicate 20 ['a'] := by decide
  have hwrap : ∀ measure : Str → ℚ, (∀ l : Str, ¬ measure l < textAvailWidth defaultSettings) →
      wrapText ("a a a a a a a a a a a a a a a a a a a a").toList measure
          (textAvailWidth defaultSettings)
        = List.replicate 20 ['a'] := by
    intro measure hm
    simp only [wrapText]
    rw [hsplit]
    rw [wrapTextLoop_allPush measure (textAvailWidth defaultSettings) hm _ _ _ (by decide)
      (by decide)]
    decide
  refine ⟨?_, ?_, ?_⟩
  · rw [hwrap _ (fun l => hnl l)]
    decide
  · norm_num [textStartY, contentContainerY, textLineHeight, bodyTextSize, textBottomBound,
      contentContainerH, defaultSettings]
  · intro hmem
    rw [renderTextContentOps] at hmem
    rcases List.mem_append.mp hmem with h | h
    · simp [containerOps] at h
    · rw [hwrap _ (fun l => hnl l)] at h
      rcases (mem_drawTextLines _ _ _ _ _ 0 _).mp h with ⟨j, hj, hcond, heq⟩
      simp only [DrawOp.fillTextOp.injEq] at heq
      obtain ⟨-, -, hyeq⟩ := heq
      have hy : ((19 : ℕ) : ℚ) * textLineHeight = ((0 + j : ℕ) : ℚ) * textLineHeight :=
        add_left_cancel hyeq
      have hcast : ((19 : ℕ) : ℚ) = ((0 + j : ℕ) : ℚ) :=
        mul_right_cancel₀ textLineHeight_ne_zero hy
      have hj19 : (0 + j : ℕ) = 19 := by exact_mod_cast hcast.symm
      rw [hj19] at hcond
      norm_num [textStartY, contentContainerY, textLineHeight, bodyTextSize, textBottomBound,
        contentContainerH, defaultSettings] at hcond

/-- C7 (amended): with the composer's settings, each wrapped body line `i`
is drawn at top `textY + i * lineHeight` (lineHeight = fontSize × 1.4) if
and only if its bottom `textY + (i + 1) * lineHeight` lies strictly above
the sub-area's bottom bound; a line is silently skipped (no error) exactly
when its bottom would reach or pass that bound, even if its top is still
above it. -/
theorem renderText_truncation (text : Str) (measure : String → Str → ℚ) (i : ℕ)
    (hi : i < (wrapText text
        (measure (fontSpec false bodyTextSize defaultSettings.titleFontFamily))
        (textAvailWidth defaultSettings)).length) :
    (DrawOp.fillTextOp
          ((wrapText text (measure (fontSpec false bodyTextSize defaultSettings.titleFontFamily))
              (textAvailWidth defaultSettings)).get ⟨i, hi⟩)
          (textStartX defaultSettings)
          (textStartY defaultSettings + (i : ℚ) * textLineHeight)
        ∈ renderTextContentOps text measure defaultSettings)
      ↔ textStartY defaultSettings + ((i : ℚ) + 1) * textLineHeight
          < textBottomBound defaultSettings := by
  constructor
  · intro hmem
    rw [renderTextContentOps] at hmem
    rcases List.mem_append.mp hmem with h | h
    · simp [containerOps] at h
    · rcases (mem_drawTextLines _ _ _ _ _ 0 _).mp h with ⟨j, hj, hcond, heq⟩
      simp only [DrawOp.fillTextOp.injEq] at heq
      obtain ⟨-, -, hyeq⟩ := heq
      have hcast : ((i : ℕ) : ℚ) = ((0 + j : ℕ) : ℚ) :=
        mul_right_cancel₀ textLineHeight_ne_zero (add_left_cancel hyeq)
      have hji : (0 + j : ℕ) = i := by exact_mod_cast hcast.symm
      rw [hji] at hcond
      exact hcond
  · intro hcond
    rw [renderTextContentOps]
    refine List.mem_append.mpr (Or.inr ?_)
    refine (mem_drawTextLines _ _ _ _ _ 0 _).mpr ⟨i, hi, ?_, ?_⟩
    · simpa using hcond
    · simp

/-- Witness for C7 at the single-line text "hi" (its only line is drawn:
its bottom 54.4 is above the bound 478). -/
theorem renderText_truncation_witness :
    (0 < (wrapText "hi".toList
        ((fun _ _ => (0 : ℚ)) (fontSpec false bodyTextSize defaultSettings.titleFontFamily))
        (textAvailWidth defaultSettings)).length)
      ∧ ((DrawOp.fillTextOp
            ((wrapText "hi".toList
                ((fun _ _ => (0 : ℚ)) (fontSpec false bodyTextSize
                  defaultSettings.titleFontFamily))
                (textAvailWidth defaultSettings)).get ⟨0, by decide⟩)
            (textStartX defaultSettings)
            (textStartY defaultSettings + ((0 : ℕ) : ℚ) * textLineHeight)
          ∈ renderTextContentOps "hi".toList (fun _ _ => (0 : ℚ)) defaultSettings)
        ↔ textStartY defaultSettings + (((0 : ℕ) : ℚ) + 1) * textLineHeight
            < textBottomBound defaultSettings) :=
  ⟨by decide, renderText_truncation "hi".toList (fun _ _ => (0 : ℚ)) 0 (by decide)⟩
